import Mathlib

/-!
Verification of the SiteReveal proxy layer: the two-tier admission
controller (per-IP sliding window plus global daily cap) of
src/generate.js, the generation handler around it, and the site-fetch
handler of src/api/fetch.js, embedded shallowly with times as
milliseconds-since-epoch naturals.
-/

set_option maxHeartbeats 1000000

/-- Requests allowed per IP per window (RATE_LIMIT_MAX in src/generate.js). -/
def RATE_LIMIT_MAX : Nat := 3

/-- One hour in milliseconds (RATE_LIMIT_WINDOW in src/generate.js). -/
def RATE_LIMIT_WINDOW : Nat := 60 * 60 * 1000

/-- Hard ceiling across all visitors per day (DAILY_GLOBAL_CAP in src/generate.js). -/
def DAILY_GLOBAL_CAP : Nat := 100

/-- The object returned by checkRateLimit: an allowed flag and, on denial, a reason. -/
structure RLResult where
  allowed : Bool
  reason : Option String
deriving DecidableEq, Repr

/-- Module state of src/generate.js: ipStore as a total map whose absent keys
read as the empty list (the code reads `ipStore.get(ip) || []`), together with
dailyCount and dailyReset. -/
structure RLState where
  ipStore : String → List Nat
  dailyCount : Nat
  dailyReset : Nat

/-- The lazy daily reset at the top of checkRateLimit: when now is strictly
greater than dailyReset, zero the counter and move the reset time to
now + 24 hours; otherwise leave the state unchanged. -/
def applyDailyReset (now : Nat) (s : RLState) : RLState :=
  if s.dailyReset < now then
    { s with dailyCount := 0, dailyReset := now + 24 * 60 * 60 * 1000 }
  else s

/-- The filter step of checkRateLimit: keep only timestamps `t` with
`now - t < RATE_LIMIT_WINDOW` (truncated subtraction agrees with the
JavaScript comparison on all reachable inputs). -/
def pruneWindow (now : Nat) (ts : List Nat) : List Nat :=
  ts.filter (fun t => now - t < RATE_LIMIT_WINDOW)

/-- `Math.ceil((timestamps[0] + RATE_LIMIT_WINDOW - now) / 60000)` as a
natural-number ceiling division (the numerator is positive whenever the
denial branch computes it). -/
def retryMinutes (oldest now : Nat) : Nat :=
  (oldest + RATE_LIMIT_WINDOW - now + 59999) / 60000

/-- Reason string for a global-cap denial. -/
def dailyReason : String := "Daily limit reached. Please try again tomorrow."

/-- Head of the per-window denial reason, up to and including the
retry-after number. -/
def limitReasonHead (retryAfter : Nat) : String :=
  "You\u0027ve used your " ++ (toString RATE_LIMIT_MAX ++
    (" free analyses for this hour. Try again in ~" ++ toString retryAfter))

/-- The full per-window denial reason with the pluralizing template of
src/generate.js: the literal "minute" followed by "s" exactly when the
retry-after value differs from 1. -/
def limitReason (retryAfter : Nat) : String :=
  limitReasonHead retryAfter ++
    (" minute" ++ ((if retryAfter != 1 then "s" else "") ++ "."))

/-- checkRateLimit from src/generate.js: lazy daily reset, then global-cap
check (returning before the per-IP window is read), then prune-and-check of
the per-IP window, and append-plus-increment only on the allow path. -/
def checkRateLimit (ip : String) (now : Nat) (s0 : RLState) : RLResult × RLState :=
  let s := applyDailyReset now s0
  if DAILY_GLOBAL_CAP ≤ s.dailyCount then
    ({ allowed := false, reason := some dailyReason }, s)
  else if RATE_LIMIT_MAX ≤ (pruneWindow now (s.ipStore ip)).length then
    ({ allowed := false,
       reason := some (limitReason
         (retryMinutes ((pruneWindow now (s.ipStore ip)).headD 0) now)) }, s)
  else
    ({ allowed := true, reason := none },
     { s with
        ipStore := fun k =>
          if k = ip then pruneWindow now (s.ipStore ip) ++ [now] else s.ipStore k,
        dailyCount := s.dailyCount + 1 })

/-- The state after an allowed check: the pruned window with now appended is
written back for the identifier, and the (post-reset) daily counter is
incremented. -/
def recordedState (ip : String) (now : Nat) (s : RLState) : RLState :=
  { ipStore := fun k =>
      if k = ip then pruneWindow now (s.ipStore ip) ++ [now] else s.ipStore k
    dailyCount := (applyDailyReset now s).dailyCount + 1
    dailyReset := (applyDailyReset now s).dailyReset }

/-- The header and socket fields getIP reads; `none` models an absent header
or absent socket address. -/
structure GenRequest where
  xForwardedFor : Option String
  xRealIP : Option String
  remoteAddress : Option String

/-- The split-on-comma head of the forwarded-for header value, trimmed. -/
def firstForwarded (h : String) : String := ((h.splitOn ",").headD "").trim

/-- JavaScript `||` on string-or-undefined values: the left operand is kept
exactly when it is a non-empty (truthy) string. -/
def jsOrStr (a b : Option String) : Option String :=
  match a with
  | some s => if s = "" then b else some s
  | none => b

/-- getIP from src/generate.js: forwarded-for first value (trimmed), else
real-ip header, else socket remote address, else the literal "unknown",
chained with JavaScript falsiness. -/
def getIP (r : GenRequest) : String :=
  (jsOrStr (r.xForwardedFor.map firstForwarded)
    (jsOrStr r.xRealIP (jsOrStr r.remoteAddress (some "unknown")))).getD ""

/-- The identifier-precedence rule as the spec words it: the trimmed first
comma-separated value of the forwarded-for header when that is non-empty,
otherwise the real-IP header when present and non-empty, otherwise the peer
address when available (present and non-empty), otherwise "unknown". -/
def specIP (r : GenRequest) : String :=
  if (r.xForwardedFor.map firstForwarded).getD "" ≠ "" then
    (r.xForwardedFor.map firstForwarded).getD ""
  else if r.xRealIP.getD "" ≠ "" then r.xRealIP.getD ""
  else if r.remoteAddress.getD "" ≠ "" then r.remoteAddress.getD ""
  else "unknown"

/-- JavaScript values a JSON body field can take in the fragments we model. -/
inductive JSVal where
  | undef
  | jsNull
  | str (s : String)
  | num (n : Int)
  | bool (b : Bool)
deriving DecidableEq, Repr

/-- JavaScript truthiness of a JSVal. -/
def jsTruthy : JSVal → Bool
  | .undef => false
  | .jsNull => false
  | .str s => !(s == "")
  | .num n => !(n == 0)
  | .bool b => b

/-- The typeof-string test of the handler. -/
def isString : JSVal → Bool
  | .str _ => true
  | _ => false

/-- `.length` of a string value (only read by the handler after the string
check has passed). -/
def strLength : JSVal → Nat
  | .str s => s.length
  | _ => 0

/-- The underlying string of a string value. -/
def strVal : JSVal → String
  | .str s => s
  | _ => ""

/-- Outcome of the generation handler on a POST request, up to the point
where the upstream call is issued. -/
inductive GenOutcome where
  | rateLimited (reason : Option String)
  | invalidRequest
  | promptTooLarge
  | misconfigured
  | upstreamCall (prompt : String)
deriving DecidableEq, Repr

/-- HTTP status the handler responds with for each outcome (the upstream
call path streams with status 200). -/
def GenOutcome.status : GenOutcome → Nat
  | .rateLimited _ => 429
  | .invalidRequest => 400
  | .promptTooLarge => 400
  | .misconfigured => 500
  | .upstreamCall _ => 200

/-- The POST path of the generation handler in src/generate.js: derive the
identifier, run check-and-record, surface a denial as 429, then validate the
prompt (falsy, non-string or shorter than 20 is invalid; longer than 12000 is
too large), then require the API key, then issue the upstream call. -/
def generateHandler (r : GenRequest) (prompt : JSVal) (hasApiKey : Bool)
    (now : Nat) (s : RLState) : GenOutcome × RLState :=
  let p := checkRateLimit (getIP r) now s
  if !p.1.allowed then (.rateLimited p.1.reason, p.2)
  else if !jsTruthy prompt || !(isString prompt) || strLength prompt < 20 then
    (.invalidRequest, p.2)
  else if 12000 < strLength prompt then (.promptTooLarge, p.2)
  else if !hasApiKey then (.misconfigured, p.2)
  else (.upstreamCall (strVal prompt), p.2)

/-- The prompt-rejection predicate as the claim words it: missing or not a
string, or a string of length strictly below 20 or strictly above 12000. -/
def promptRejected : JSVal → Bool
  | .str s => decide (s.length < 20) || decide (12000 < s.length)
  | _ => true

/-- What the platform URL constructor exposes of a parsed absolute URL:
its scheme (with trailing colon) and its serialization. -/
structure ParsedURL where
  protocol : String
  href : String
deriving DecidableEq, Repr

/-- Result of the outbound fetch: a response with a status and a text body,
or a thrown network-level failure with a message. -/
inductive UpstreamResult where
  | response (status : Nat) (body : String)
  | failure (msg : String)
deriving DecidableEq, Repr

/-- Outcome of the fetch handler on a POST request. -/
inductive FetchOutcome where
  | missingUrl
  | invalidUrl
  | siteError (status : Nat)
  | networkError (msg : String)
  | ok (html : String)
deriving DecidableEq, Repr

/-- HTTP status the fetch handler responds with for each outcome. -/
def FetchOutcome.status : FetchOutcome → Nat
  | .missingUrl => 400
  | .invalidUrl => 400
  | .siteError _ => 502
  | .networkError _ => 502
  | .ok _ => 200

/-- The error message carried by each non-success fetch outcome, as built in
src/api/fetch.js. -/
def FetchOutcome.errorMsg : FetchOutcome → Option String
  | .missingUrl => some "Missing url"
  | .invalidUrl => some "Invalid URL"
  | .siteError st => some ("Site returned " ++ toString st)
  | .networkError m => some ("Could not reach site: " ++ m)
  | .ok _ => none

/-- The POST path of src/api/fetch.js, parameterized by the platform URL
parser and the outbound fetch: falsy or non-string url is a missing-url 400;
a parse failure or a scheme outside http/https is an invalid-url 400; a
completed fetch with a non-2xx status is a 502 carrying the status; a thrown
fetch is a 502 carrying the message; otherwise 200 with the body text. -/
def fetchHandler (parseURL : String → Option ParsedURL)
    (doFetch : String → UpstreamResult) (url : JSVal) : FetchOutcome :=
  if !jsTruthy url || !(isString url) then .missingUrl
  else
    match parseURL (strVal url) with
    | none => .invalidUrl
    | some parsed =>
      if !(parsed.protocol == "http:" || parsed.protocol == "https:") then
        .invalidUrl
      else
        match doFetch parsed.href with
        | .response st body =>
            if !(decide (200 ≤ st) && decide (st < 300)) then .siteError st
            else .ok body
        | .failure msg => .networkError msg

/-- Split a character list at its first colon, returning the part before it
and the part after it. -/
def schemeSplit : List Char → Option (List Char × List Char)
  | [] => none
  | c :: rest =>
      if c = ':' then some ([], rest)
      else
        match schemeSplit rest with
        | some (a, b) => some (c :: a, b)
        | none => none

/-- Modelled from the spec: the platform URL constructor used by the fetch
handler (not part of src/). It accepts exactly the strings with a non-empty
alphabetic scheme followed by a colon and a non-empty remainder, exposing the
scheme plus colon as `protocol` and the input as `href`. -/
def modelParseURL (s : String) : Option ParsedURL :=
  match schemeSplit s.data with
  | none => none
  | some (scheme, rest) =>
      if !scheme.isEmpty && !rest.isEmpty && scheme.all Char.isAlpha then
        some { protocol := String.mk scheme ++ ":", href := s }
      else none

/-- The url-rejection predicate as the claim words it: missing or not a
string, or unparseable, or parsed with a scheme other than http or https. -/
def urlRejected (parseURL : String → Option ParsedURL) : JSVal → Bool
  | .str s =>
      match parseURL s with
      | none => true
      | some p => !(p.protocol == "http:" || p.protocol == "https:")
  | _ => true

/-- Fresh module state at cold start observed at time 0: empty store, zero
counter, reset time one day ahead. -/
def exInit : RLState :=
  { ipStore := fun _ => [], dailyCount := 0, dailyReset := 24 * 60 * 60 * 1000 }

/-- A request carrying no identifying headers at all. -/
def req0 : GenRequest :=
  { xForwardedFor := none, xRealIP := none, remoteAddress := none }

/-- A string of a given length, for the prompt-length examples. -/
def promptOfLen (n : Nat) : String := String.mk (List.replicate n 'p')

/-- A state whose identifier window already holds three in-window
timestamps while the daily counter is far below the cap. -/
def wState : RLState :=
  { ipStore := fun _ => [0, 0, 0], dailyCount := 0, dailyReset := 24 * 60 * 60 * 1000 }

/-- A state in which the daily reset is overdue while an identifier still
holds three in-window timestamps. -/
def cexState : RLState :=
  { ipStore := fun _ => [0, 0, 0], dailyCount := 5, dailyReset := 10 }

/-- State after the first example request of the spec (ip 1.2.3.4 at t = 0). -/
def exS1 : RLState := (checkRateLimit "1.2.3.4" 0 exInit).2

/-- State after the second example request (t = 1 minute). -/
def exS2 : RLState := (checkRateLimit "1.2.3.4" 60000 exS1).2

/-- State after the third example request (t = 2 minutes). -/
def exS3 : RLState := (checkRateLimit "1.2.3.4" 120000 exS2).2

/-- A state whose global counter sits exactly at the daily cap before its
reset time has passed. -/
def capState : RLState :=
  { ipStore := fun _ => [], dailyCount := 100, dailyReset := 50 }

/-- The validation-and-dispatch tail of the generation handler, reached once
the admission check has allowed the request. -/
def validateOutcome (v : JSVal) (hasApiKey : Bool) : GenOutcome :=
  if !jsTruthy v || !(isString v) || strLength v < 20 then .invalidRequest
  else if 12000 < strLength v then .promptTooLarge
  else if !hasApiKey then .misconfigured
  else .upstreamCall (strVal v)

theorem applyDailyReset_ipStore (now : Nat) (s : RLState) :
    (applyDailyReset now s).ipStore = s.ipStore := by
  unfold applyDailyReset
  split <;> rfl

theorem applyDailyReset_count_cases (now : Nat) (s : RLState) :
    (applyDailyReset now s).dailyCount = s.dailyCount ∨
      (s.dailyReset < now ∧ (applyDailyReset now s).dailyCount = 0) := by
  unfold applyDailyReset
  split
  · exact Or.inr ⟨by assumption, rfl⟩
  · exact Or.inl rfl

theorem checkRateLimit_cap {s : RLState} {ip : String} {now : Nat}
    (h : DAILY_GLOBAL_CAP ≤ (applyDailyReset now s).dailyCount) :
    checkRateLimit ip now s =
      ({ allowed := false, reason := some dailyReason }, applyDailyReset now s) := by
  simp only [checkRateLimit]
  rw [if_pos h]

theorem checkRateLimit_deny {s : RLState} {ip : String} {now : Nat}
    (h1 : ¬ DAILY_GLOBAL_CAP ≤ (applyDailyReset now s).dailyCount)
    (h2 : RATE_LIMIT_MAX ≤ (pruneWindow now (s.ipStore ip)).length) :
    checkRateLimit ip now s =
      ({ allowed := false,
         reason := some (limitReason
           (retryMinutes ((pruneWindow now (s.ipStore ip)).headD 0) now)) },
       applyDailyReset now s) := by
  simp only [checkRateLimit, applyDailyReset_ipStore]
  rw [if_neg h1, if_pos h2]

theorem checkRateLimit_allow {s : RLState} {ip : String} {now : Nat}
    (h1 : ¬ DAILY_GLOBAL_CAP ≤ (applyDailyReset now s).dailyCount)
    (h2 : ¬ RATE_LIMIT_MAX ≤ (pruneWindow now (s.ipStore ip)).length) :
    checkRateLimit ip now s =
      ({ allowed := true, reason := none }, recordedState ip now s) := by
  simp only [checkRateLimit, applyDailyReset_ipStore]
  rw [if_neg h1, if_neg h2]
  simp only [recordedState, applyDailyReset_ipStore]

theorem mem_pruneWindow {now t : Nat} {ts : List Nat} (h : t ∈ pruneWindow now ts) :
    t ∈ ts ∧ now - t < RATE_LIMIT_WINDOW := by
  simpa [pruneWindow, List.mem_filter] using h

theorem pruneWindow_sorted {now : Nat} {ts : List Nat}
    (hs : List.Sorted (· ≤ ·) ts) : List.Sorted (· ≤ ·) (pruneWindow now ts) :=
  hs.filter _

theorem retryMinutes_pos {t now : Nat} (hw : now - t < RATE_LIMIT_WINDOW) :
    1 ≤ retryMinutes t now := by
  unfold RATE_LIMIT_WINDOW at hw
  unfold retryMinutes RATE_LIMIT_WINDOW
  rw [Nat.le_div_iff_mul_le (by norm_num)]
  omega

theorem retryMinutes_le_60 {t now : Nat} (ht : t ≤ now) :
    retryMinutes t now ≤ 60 := by
  have h : retryMinutes t now < 61 := by
    unfold retryMinutes RATE_LIMIT_WINDOW
    rw [Nat.div_lt_iff_lt_mul (by norm_num)]
    omega
  omega

theorem generateHandler_allowed {s : RLState} {r : GenRequest} {v : JSVal}
    {k : Bool} {now : Nat}
    (h1 : ¬ DAILY_GLOBAL_CAP ≤ (applyDailyReset now s).dailyCount)
    (h2 : ¬ RATE_LIMIT_MAX ≤ (pruneWindow now (s.ipStore (getIP r))).length) :
    generateHandler r v k now s = (validateOutcome v k, recordedState (getIP r) now s) := by
  simp only [generateHandler, checkRateLimit_allow h1 h2, validateOutcome,
    Bool.not_true, Bool.false_eq_true, if_false]
  split_ifs <;> rfl

/-- C1: when the pruned window of an identifier already holds
RATE_LIMIT_MAX = 3 timestamps and the (post-reset) daily counter is below
the cap, the check denies; the retry-after equals the ceiling in minutes of
(oldest surviving timestamp + window - now), lies in [1, 60], and the reason
pluralizes the word minute exactly for values other than 1. With the
1-hour window and max 3, requests from one identifier at 0, 1 and 2 minutes
are allowed and a fourth at 3 minutes is denied with retry-after 57. -/
theorem rateLimit_fourth_request_denied :
    (∀ (s : RLState) (ip : String) (now : Nat),
      (applyDailyReset now s).dailyCount < DAILY_GLOBAL_CAP →
      (pruneWindow now (s.ipStore ip)).length = RATE_LIMIT_MAX →
      (∀ t ∈ s.ipStore ip, t ≤ now) →
      List.Sorted (· ≤ ·) (s.ipStore ip) →
      ((checkRateLimit ip now s).1.allowed = false ∧
       (checkRateLimit ip now s).1.reason =
         some (limitReason (retryMinutes ((pruneWindow now (s.ipStore ip)).headD 0) now)) ∧
       (∀ t ∈ pruneWindow now (s.ipStore ip),
         (pruneWindow now (s.ipStore ip)).headD 0 ≤ t) ∧
       1 ≤ retryMinutes ((pruneWindow now (s.ipStore ip)).headD 0) now ∧
       retryMinutes ((pruneWindow now (s.ipStore ip)).headD 0) now ≤ 60)) ∧
    (∀ rA : Nat,
      (rA = 1 → limitReason rA = limitReasonHead rA ++ " minute.") ∧
      (rA ≠ 1 → limitReason rA = limitReasonHead rA ++ " minutes.")) ∧
    (checkRateLimit "1.2.3.4" 0 exInit).1.allowed = true ∧
    (checkRateLimit "1.2.3.4" 60000 exS1).1.allowed = true ∧
    (checkRateLimit "1.2.3.4" 120000 exS2).1.allowed = true ∧
    (checkRateLimit "1.2.3.4" 180000 exS3).1 =
      { allowed := false, reason := some (limitReason 57) } ∧
    retryMinutes 0 180000 = 57 := by
  refine ⟨?_, ?_, by decide, by decide, by decide, by decide, by decide⟩
  · intro s ip now h1 h2 h3 hsort
    have hcap : ¬ DAILY_GLOBAL_CAP ≤ (applyDailyReset now s).dailyCount :=
      Nat.not_le.mpr h1
    have hlen : RATE_LIMIT_MAX ≤ (pruneWindow now (s.ipStore ip)).length :=
      le_of_eq h2.symm
    have hne : pruneWindow now (s.ipStore ip) ≠ [] := by
      intro hnil
      rw [hnil] at h2
      simp [RATE_LIMIT_MAX] at h2
    have hmemhead : (pruneWindow now (s.ipStore ip)).headD 0 ∈
        pruneWindow now (s.ipStore ip) := by
      cases hp : pruneWindow now (s.ipStore ip) with
      | nil => exact absurd hp hne
      | cons a l => simp
    have hwin := (mem_pruneWindow hmemhead).2
    have hle : (pruneWindow now (s.ipStore ip)).headD 0 ≤ now :=
      h3 _ (mem_pruneWindow hmemhead).1
    rw [checkRateLimit_deny hcap hlen]
    refine ⟨rfl, rfl, ?_, retryMinutes_pos hwin, retryMinutes_le_60 hle⟩
    · have hps : List.Sorted (· ≤ ·) (pruneWindow now (s.ipStore ip)) :=
        pruneWindow_sorted hsort
      intro t ht
      cases hp : pruneWindow now (s.ipStore ip) with
      | nil => exact absurd hp hne
      | cons a l =>
        rw [hp] at ht hps
        simp only [List.headD_cons]
        rcases List.mem_cons.mp ht with h | h
        · exact le_of_eq h.symm
        · exact List.rel_of_sorted_cons hps t h
  · intro rA
    constructor
    · intro h
      subst h
      decide
    · intro h
      have hb : (rA != 1) = true := by simpa [bne_iff_ne] using h
      simp only [limitReason]
      rw [if_pos hb]
      congr 1

theorem rateLimit_fourth_request_denied_witness :
    (checkRateLimit "a" 10 wState).1.allowed = false ∧
    (checkRateLimit "a" 10 wState).1.reason =
      some (limitReason (retryMinutes ((pruneWindow 10 (wState.ipStore "a")).headD 0) 10)) ∧
    1 ≤ retryMinutes ((pruneWindow 10 (wState.ipStore "a")).headD 0) 10 ∧
    retryMinutes ((pruneWindow 10 (wState.ipStore "a")).headD 0) 10 ≤ 60 := by
  have h := rateLimit_fourth_request_denied.1 wState "a" 10 (by decide) (by decide)
    (by decide) (by decide)
  exact ⟨h.1, h.2.1, h.2.2.2.1, h.2.2.2.2⟩

theorem applyDailyReset_noop {now : Nat} {s : RLState} (h : ¬ s.dailyReset < now) :
    applyDailyReset now s = s := by
  unfold applyDailyReset
  rw [if_neg h]

theorem applyDailyReset_fires {now : Nat} {s : RLState} (h : s.dailyReset < now) :
    applyDailyReset now s =
      { s with dailyCount := 0, dailyReset := now + 24 * 60 * 60 * 1000 } := by
  unfold applyDailyReset
  rw [if_pos h]

theorem pruneWindow_expired {now : Nat} {ts : List Nat}
    (h : ∀ t ∈ ts, t + RATE_LIMIT_WINDOW ≤ now) : pruneWindow now ts = [] := by
  induction ts with
  | nil => rfl
  | cons a l ih =>
    have ha := h a (List.mem_cons_self a l)
    have hcond : ¬ (now - a < RATE_LIMIT_WINDOW) := by omega
    simp only [pruneWindow, List.filter_cons, decide_eq_false hcond,
      Bool.false_eq_true, if_false]
    exact ih (fun t ht => h t (List.mem_cons_of_mem a ht))

/-- C2: while the (post-reset) daily counter is below the cap, any check that
finds fewer than RATE_LIMIT_MAX surviving timestamps for the identifier is
allowed and appends the current timestamp to the pruned window; once the full
window has elapsed since all recorded requests of an identifier, its window
prunes to empty, so the check is allowed and the stored window becomes just
the new timestamp - the full quota is available again. -/
theorem rateLimit_allows_under_quota :
    (∀ (s : RLState) (ip : String) (now : Nat),
      (applyDailyReset now s).dailyCount < DAILY_GLOBAL_CAP →
      (pruneWindow now (s.ipStore ip)).length < RATE_LIMIT_MAX →
      ((checkRateLimit ip now s).1 = { allowed := true, reason := none } ∧
       (checkRateLimit ip now s).2.ipStore ip =
         pruneWindow now (s.ipStore ip) ++ [now] ∧
       (checkRateLimit ip now s).2.dailyCount =
         (applyDailyReset now s).dailyCount + 1)) ∧
    (∀ (s : RLState) (ip : String) (now : Nat),
      (applyDailyReset now s).dailyCount < DAILY_GLOBAL_CAP →
      (∀ t ∈ s.ipStore ip, t + RATE_LIMIT_WINDOW ≤ now) →
      ((checkRateLimit ip now s).1.allowed = true ∧
       (checkRateLimit ip now s).2.ipStore ip = [now])) := by
  constructor
  · intro s ip now h1 h2
    rw [checkRateLimit_allow (Nat.not_le.mpr h1) (Nat.not_le.mpr h2)]
    refine ⟨rfl, ?_, rfl⟩
    simp [recordedState]
  · intro s ip now h1 h2
    have hnil : pruneWindow now (s.ipStore ip) = [] := pruneWindow_expired h2
    have hlen : ¬ RATE_LIMIT_MAX ≤ (pruneWindow now (s.ipStore ip)).length := by
      rw [hnil]
      decide
    rw [checkRateLimit_allow (Nat.not_le.mpr h1) hlen]
    refine ⟨rfl, ?_⟩
    simp [recordedState, hnil]

theorem rateLimit_allows_under_quota_witness :
    (checkRateLimit "b" 5 exInit).1 = { allowed := true, reason := none } ∧
    (checkRateLimit "b" 5 exInit).2.ipStore "b" =
      pruneWindow 5 (exInit.ipStore "b") ++ [5] ∧
    (checkRateLimit "b" 5 exInit).2.dailyCount =
      (applyDailyReset 5 exInit).dailyCount + 1 :=
  rateLimit_allows_under_quota.1 exInit "b" 5 (by decide) (by decide)

/-- C3 counterexample: with an overdue daily reset and a full in-window
sequence for the identifier, the call is denied by the per-identifier window
and yet the global daily counter changes (it is zeroed by the lazy reset
during the same call), contradicting the claim that a denied call changes
neither counter. -/
theorem rateLimit_denied_state_counterexample :
    (checkRateLimit "a" 20 cexState).1.allowed = false ∧
    ¬ (checkRateLimit "a" 20 cexState).2.dailyCount = cexState.dailyCount := by
  decide

/-- C3 amended: on every denied call the ipStore (hence the stored sequence
of every identifier) is unchanged and the counter is never incremented - it
is unchanged, except that when now exceeds the stored reset time the lazy
daily reset zeroes it before the denial is computed. A global-cap denial is
decided without reading the window: ipStore is unchanged and the result is
identical under arbitrary replacement of the store contents. -/
theorem rateLimit_denied_no_record :
    ∀ (s : RLState) (ip : String) (now : Nat),
      ((checkRateLimit ip now s).1.allowed = false →
        ((checkRateLimit ip now s).2.ipStore = s.ipStore ∧
         ((checkRateLimit ip now s).2.dailyCount = s.dailyCount ∨
           (s.dailyReset < now ∧ (checkRateLimit ip now s).2.dailyCount = 0)))) ∧
      (DAILY_GLOBAL_CAP ≤ (applyDailyReset now s).dailyCount →
        ((checkRateLimit ip now s).1 =
           { allowed := false, reason := some dailyReason } ∧
         (checkRateLimit ip now s).2.ipStore = s.ipStore ∧
         ∀ f : String → List Nat,
           (checkRateLimit ip now { s with ipStore := f }).1 =
             (checkRateLimit ip now s).1)) := by
  intro s ip now
  constructor
  · intro hdenied
    by_cases hcap : DAILY_GLOBAL_CAP ≤ (applyDailyReset now s).dailyCount
    · rw [checkRateLimit_cap hcap]
      exact ⟨applyDailyReset_ipStore now s, applyDailyReset_count_cases now s⟩
    · by_cases hlen : RATE_LIMIT_MAX ≤ (pruneWindow now (s.ipStore ip)).length
      · rw [checkRateLimit_deny hcap hlen]
        exact ⟨applyDailyReset_ipStore now s, applyDailyReset_count_cases now s⟩
      · rw [checkRateLimit_allow hcap hlen] at hdenied
        simp at hdenied
  · intro hcap
    refine ⟨?_, ?_, ?_⟩
    · rw [checkRateLimit_cap hcap]
    · rw [checkRateLimit_cap hcap]
      exact applyDailyReset_ipStore now s
    · intro f
      have hsame : (applyDailyReset now { s with ipStore := f }).dailyCount =
          (applyDailyReset now s).dailyCount := by
        unfold applyDailyReset
        by_cases hd : s.dailyReset < now
        · rw [if_pos hd, if_pos hd]
        · rw [if_neg hd, if_neg hd]
      have hf : DAILY_GLOBAL_CAP ≤
          (applyDailyReset now { s with ipStore := f }).dailyCount := by
        rw [hsame]
        exact hcap
      rw [checkRateLimit_cap hf, checkRateLimit_cap hcap]

theorem rateLimit_denied_no_record_witness :
    (checkRateLimit "a" 20 cexState).2.ipStore = cexState.ipStore ∧
    ((checkRateLimit "a" 20 cexState).2.dailyCount = cexState.dailyCount ∨
      (cexState.dailyReset < 20 ∧
        (checkRateLimit "a" 20 cexState).2.dailyCount = 0)) :=
  (rateLimit_denied_no_record cexState "a" 20).1 (by decide)

/-- C4: while the counter has reached the cap and now has not passed the
stored reset time, every check for every identifier is the fixed
try-again-tomorrow denial and the state is untouched; as soon as now exceeds
the reset time, the reset time advances to now + 24 hours, the counter is
zeroed, and the identifier is accepted again exactly according to its own
window (counter 1 after an allowed check, 0 after a window denial). -/
theorem globalCap_denies_until_reset :
    ∀ (s : RLState) (ip : String) (now : Nat),
      (DAILY_GLOBAL_CAP ≤ s.dailyCount → now ≤ s.dailyReset →
        checkRateLimit ip now s =
          ({ allowed := false, reason := some dailyReason }, s)) ∧
      (s.dailyReset < now →
        ((checkRateLimit ip now s).2.dailyReset = now + 24 * 60 * 60 * 1000 ∧
         ((pruneWindow now (s.ipStore ip)).length < RATE_LIMIT_MAX →
           (checkRateLimit ip now s).1.allowed = true ∧
           (checkRateLimit ip now s).2.dailyCount = 1) ∧
         (RATE_LIMIT_MAX ≤ (pruneWindow now (s.ipStore ip)).length →
           (checkRateLimit ip now s).1.allowed = false ∧
           (checkRateLimit ip now s).2.dailyCount = 0))) := by
  intro s ip now
  constructor
  · intro h1 h2
    have hnr : ¬ s.dailyReset < now := Nat.not_lt.mpr h2
    have hnoop := applyDailyReset_noop hnr
    have hcap : DAILY_GLOBAL_CAP ≤ (applyDailyReset now s).dailyCount := by
      rw [hnoop]
      exact h1
    rw [checkRateLimit_cap hcap, hnoop]
  · intro hd
    have hfir := applyDailyReset_fires hd
    have hzero : (applyDailyReset now s).dailyCount = 0 := by rw [hfir]
    have hcap : ¬ DAILY_GLOBAL_CAP ≤ (applyDailyReset now s).dailyCount := by
      rw [hzero]
      decide
    refine ⟨?_, ?_, ?_⟩
    · by_cases hlen : RATE_LIMIT_MAX ≤ (pruneWindow now (s.ipStore ip)).length
      · rw [checkRateLimit_deny hcap hlen, hfir]
      · rw [checkRateLimit_allow hcap hlen]
        simp only [recordedState]
        rw [hfir]
    · intro hlt
      rw [checkRateLimit_allow hcap (Nat.not_le.mpr hlt)]
      refine ⟨rfl, ?_⟩
      simp only [recordedState]
      rw [hzero]
    · intro hlen
      rw [checkRateLimit_deny hcap hlen]
      exact ⟨rfl, hzero⟩

theorem globalCap_denies_until_reset_witness :
    checkRateLimit "c" 40 capState =
      ({ allowed := false, reason := some dailyReason }, capState) :=
  (globalCap_denies_until_reset capState "c" 40).1 (by decide) (by decide)

/-- C10: in the sequential model every call preserves the invariants - each
stored window keeps at most RATE_LIMIT_MAX timestamps, the daily counter
never exceeds the cap, and any window the call writes (the only entries that
can differ from the pre-state) contains only timestamps inside the window as
of the write time. -/
theorem rateLimit_invariants :
    ∀ (s : RLState) (ip : String) (now : Nat),
      (∀ k, (s.ipStore k).length ≤ RATE_LIMIT_MAX) →
      s.dailyCount ≤ DAILY_GLOBAL_CAP →
      ((∀ k, ((checkRateLimit ip now s).2.ipStore k).length ≤ RATE_LIMIT_MAX) ∧
       (checkRateLimit ip now s).2.dailyCount ≤ DAILY_GLOBAL_CAP ∧
       (∀ k, (checkRateLimit ip now s).2.ipStore k ≠ s.ipStore k →
         ∀ t ∈ (checkRateLimit ip now s).2.ipStore k,
           now - t < RATE_LIMIT_WINDOW)) := by
  intro s ip now hlen hcap
  have hcount : (applyDailyReset now s).dailyCount ≤ DAILY_GLOBAL_CAP := by
    rcases applyDailyReset_count_cases now s with h | ⟨_, h⟩ <;> omega
  by_cases hc : DAILY_GLOBAL_CAP ≤ (applyDailyReset now s).dailyCount
  · rw [checkRateLimit_cap hc]
    rw [applyDailyReset_ipStore]
    exact ⟨hlen, hcount, fun k hk => absurd rfl hk⟩
  · by_cases hl : RATE_LIMIT_MAX ≤ (pruneWindow now (s.ipStore ip)).length
    · rw [checkRateLimit_deny hc hl]
      rw [applyDailyReset_ipStore]
      exact ⟨hlen, hcount, fun k hk => absurd rfl hk⟩
    · rw [checkRateLimit_allow hc hl]
      simp only [recordedState]
      have hlt := Nat.not_le.mp hl
      refine ⟨?_, by omega, ?_⟩
      · intro k
        by_cases hk : k = ip
        · rw [if_pos hk, List.length_append]
          simp only [List.length_singleton]
          omega
        · rw [if_neg hk]
          exact hlen k
      · intro k hk t ht
        by_cases hkip : k = ip
        · rw [if_pos hkip] at ht
          rcases List.mem_append.mp ht with h | h
          · exact (mem_pruneWindow h).2
          · have : t = now := by simpa using h
            subst this
            rw [Nat.sub_self]
            decide
        · rw [if_neg hkip] at hk
          exact absurd rfl hk

theorem rateLimit_invariants_witness :
    (checkRateLimit "d" 7 exInit).2.dailyCount ≤ DAILY_GLOBAL_CAP :=
  (rateLimit_invariants exInit "d" 7 (fun k => by simp [exInit])
    (by decide)).2.1

theorem promptOfLen_length (n : Nat) : (promptOfLen n).length = n := by
  simp [promptOfLen, String.length]

theorem jsTruthy_promptOfLen {n : Nat} (h : 0 < n) :
    jsTruthy (JSVal.str (promptOfLen n)) = true := by
  simp only [jsTruthy, promptOfLen, Bool.not_eq_eq_eq_not, Bool.not_true,
    beq_eq_false_iff_ne, ne_eq, String.ext_iff]
  intro hc
  have hlen := congrArg List.length hc
  simp at hlen
  omega

theorem validateOutcome_status_400 (v : JSVal) (k : Bool) :
    ((validateOutcome v k).status = 400 ↔ promptRejected v = true) := by
  cases v with
  | undef => cases k <;> decide
  | jsNull => cases k <;> decide
  | num n =>
    simp [validateOutcome, isString, promptRejected, GenOutcome.status]
  | bool b =>
    simp [validateOutcome, isString, promptRejected, GenOutcome.status]
  | str t =>
    by_cases h19 : t.length < 20
    · simp [validateOutcome, jsTruthy, isString, strLength, promptRejected,
        GenOutcome.status, h19]
    · have hne : (t == "") = false := by
        apply beq_eq_false_iff_ne.mpr
        intro hc
        apply h19
        simp [hc]
      by_cases h12 : 12000 < t.length
      · simp [validateOutcome, jsTruthy, isString, strLength, promptRejected,
          GenOutcome.status, h19, h12, hne]
      · cases k <;>
          simp [validateOutcome, jsTruthy, isString, strLength, promptRejected,
            GenOutcome.status, h19, h12, hne]

/-- C6: for an accepted (not rate-limited) POST, the handler answers 400
exactly when the prompt is missing, not a string, shorter than 20, or longer
than 12000 characters; a 19-character prompt gets 400, a 20-character prompt
passes validation through to the upstream call, and a 12001-character prompt
gets 400. -/
theorem prompt_validation_400 :
    (∀ (r : GenRequest) (v : JSVal) (k : Bool) (now : Nat) (s : RLState),
      (applyDailyReset now s).dailyCount < DAILY_GLOBAL_CAP →
      (pruneWindow now (s.ipStore (getIP r))).length < RATE_LIMIT_MAX →
      ((generateHandler r v k now s).1.status = 400 ↔ promptRejected v = true)) ∧
    (generateHandler req0 (.str (promptOfLen 19)) true 0 exInit).1.status = 400 ∧
    (generateHandler req0 (.str (promptOfLen 20)) true 0 exInit).1 =
      .upstreamCall (promptOfLen 20) ∧
    (generateHandler req0 (.str (promptOfLen 12001)) true 0 exInit).1.status = 400 := by
  have hmain : ∀ (r : GenRequest) (v : JSVal) (k : Bool) (now : Nat) (s : RLState),
      (applyDailyReset now s).dailyCount < DAILY_GLOBAL_CAP →
      (pruneWindow now (s.ipStore (getIP r))).length < RATE_LIMIT_MAX →
      ((generateHandler r v k now s).1.status = 400 ↔ promptRejected v = true) := by
    intro r v k now s h1 h2
    rw [generateHandler_allowed (Nat.not_le.mpr h1) (Nat.not_le.mpr h2)]
    exact validateOutcome_status_400 v k
  refine ⟨hmain, ?_, ?_, ?_⟩
  · exact (hmain req0 (.str (promptOfLen 19)) true 0 exInit (by decide)
      (by decide)).mpr (by decide)
  · rw [generateHandler_allowed (by decide) (by decide)]
    have htr := jsTruthy_promptOfLen (n := 20) (by decide)
    simp [validateOutcome, htr, strLength, isString, strVal, promptOfLen_length]
  · exact (hmain req0 (.str (promptOfLen 12001)) true 0 exInit (by decide)
      (by decide)).mpr (by simp [promptRejected, promptOfLen_length])

theorem prompt_validation_400_witness :
    ((generateHandler req0 (.num 0) true 0 exInit).1.status = 400 ↔
      promptRejected (.num 0) = true) :=
  prompt_validation_400.1 req0 (.num 0) true 0 exInit (by decide) (by decide)

/-- C5: when the admission check passes but the prompt then fails
validation, the response is 400 and the request has nonetheless been
recorded: the identifier window gained the current timestamp and the daily
counter was incremented, because check-and-record runs before body
validation and is not rolled back. -/
theorem rejected_prompt_still_recorded :
    ∀ (r : GenRequest) (v : JSVal) (k : Bool) (now : Nat) (s : RLState),
      (applyDailyReset now s).dailyCount < DAILY_GLOBAL_CAP →
      (pruneWindow now (s.ipStore (getIP r))).length < RATE_LIMIT_MAX →
      promptRejected v = true →
      ((generateHandler r v k now s).1.status = 400 ∧
       (generateHandler r v k now s).2.ipStore (getIP r) =
         pruneWindow now (s.ipStore (getIP r)) ++ [now] ∧
       (generateHandler r v k now s).2.dailyCount =
         (applyDailyReset now s).dailyCount + 1) := by
  intro r v k now s h1 h2 hrej
  rw [generateHandler_allowed (Nat.not_le.mpr h1) (Nat.not_le.mpr h2)]
  refine ⟨(validateOutcome_status_400 v k).mpr hrej, ?_, rfl⟩
  simp [recordedState]

theorem rejected_prompt_still_recorded_witness :
    (generateHandler req0 (.num 7) true 0 exInit).1.status = 400 ∧
    (generateHandler req0 (.num 7) true 0 exInit).2.ipStore (getIP req0) =
      pruneWindow 0 (exInit.ipStore (getIP req0)) ++ [0] ∧
    (generateHandler req0 (.num 7) true 0 exInit).2.dailyCount =
      (applyDailyReset 0 exInit).dailyCount + 1 :=
  rejected_prompt_still_recorded req0 (.num 7) true 0 exInit (by decide)
    (by decide) (by decide)

/-- C7: the source identifier equals the trimmed first comma-separated value
of the forwarded-for header when that is non-empty, else the real-IP header
when present and non-empty, else the transport peer address when present and
non-empty, else the literal "unknown", in exactly this precedence order. -/
theorem getIP_matches_precedence (r : GenRequest) : getIP r = specIP r := by
  rcases r with ⟨xf, xr, ra⟩
  cases xf <;> cases xr <;> cases ra <;>
    simp only [getIP, specIP, jsOrStr, Option.map_some', Option.map_none',
      Option.getD_some, Option.getD_none, ne_eq] <;>
    split_ifs <;>
    simp_all

/-- C8: the fetch handler answers 400 exactly when the url field is missing,
not a string, fails to parse as an absolute URL, or parses with a scheme
other than http or https (given that the parser rejects the empty string, as
every absolute-URL parser does); "ftp://x.com" is rejected as an invalid URL
and "https://example.com" proceeds to the outbound fetch. -/
theorem fetch_url_validation_400 :
    (∀ (parseURL : String → Option ParsedURL)
       (doFetch : String → UpstreamResult) (v : JSVal),
      parseURL "" = none →
      ((fetchHandler parseURL doFetch v).status = 400 ↔
        urlRejected parseURL v = true)) ∧
    (∀ doFetch : String → UpstreamResult,
      fetchHandler modelParseURL doFetch (.str "ftp://x.com") = .invalidUrl) ∧
    fetchHandler modelParseURL (fun _ => .response 200 "h")
      (.str "https://example.com") = .ok "h" := by
  refine ⟨?_, fun doFetch => rfl, rfl⟩
  intro parseURL doFetch v hempty
  cases v with
  | undef =>
    simp [fetchHandler, jsTruthy, isString, urlRejected, FetchOutcome.status]
  | jsNull =>
    simp [fetchHandler, jsTruthy, isString, urlRejected, FetchOutcome.status]
  | num n =>
    simp [fetchHandler, jsTruthy, isString, urlRejected, FetchOutcome.status]
  | bool b =>
    simp [fetchHandler, jsTruthy, isString, urlRejected, FetchOutcome.status]
  | str t =>
    by_cases ht : t = ""
    · subst ht
      simp [fetchHandler, jsTruthy, isString, strVal, urlRejected, hempty,
        FetchOutcome.status]
    · have htr : (t == "") = false := beq_eq_false_iff_ne.mpr ht
      simp only [fetchHandler, jsTruthy, isString, strVal, htr, Bool.not_false,
        Bool.not_true, Bool.or_false, Bool.false_or, Bool.not_not,
        Bool.false_eq_true, if_false]
      cases hp : parseURL t with
      | none => simp [urlRejected, hp, FetchOutcome.status]
      | some p =>
        by_cases hproto : (p.protocol == "http:" || p.protocol == "https:") = true
        · cases hf : doFetch p.href with
          | response st body =>
            by_cases hok : (decide (200 ≤ st) && decide (st < 300)) = true
            · simp [urlRejected, hp, hproto, hf, hok, FetchOutcome.status]
            · simp [urlRejected, hp, hproto, hf, hok, FetchOutcome.status]
          | failure m => simp [urlRejected, hp, hproto, hf, FetchOutcome.status]
        · simp [urlRejected, hp, hproto, FetchOutcome.status]

theorem fetch_url_validation_400_witness :
    ((fetchHandler modelParseURL (fun _ => UpstreamResult.failure "x")
        (.str "ftp://x.com")).status = 400 ↔
      urlRejected modelParseURL (.str "ftp://x.com") = true) :=
  fetch_url_validation_400.1 modelParseURL (fun _ => UpstreamResult.failure "x")
    (.str "ftp://x.com") rfl

/-- C9: for a request whose url parses with an http or https scheme, a
completed outbound fetch with a non-2xx status yields a 502 carrying that
status, a thrown fetch yields a 502 carrying the failure description, a 2xx
fetch yields 200 with the whole body, and the response is 200 only when the
fetch completed with a 2xx status. -/
theorem fetch_upstream_outcomes :
    ∀ (parseURL : String → Option ParsedURL)
      (doFetch : String → UpstreamResult) (t : String) (p : ParsedURL),
      t ≠ "" → parseURL t = some p →
      (p.protocol = "http:" ∨ p.protocol = "https:") →
      ((∀ st body, doFetch p.href = .response st body →
          ¬ (200 ≤ st ∧ st < 300) →
          (fetchHandler parseURL doFetch (.str t) = .siteError st ∧
           (FetchOutcome.siteError st).status = 502 ∧
           (FetchOutcome.siteError st).errorMsg =
             some ("Site returned " ++ toString st))) ∧
       (∀ msg, doFetch p.href = .failure msg →
          (fetchHandler parseURL doFetch (.str t) = .networkError msg ∧
           (FetchOutcome.networkError msg).status = 502 ∧
           (FetchOutcome.networkError msg).errorMsg =
             some ("Could not reach site: " ++ msg))) ∧
       (∀ st body, doFetch p.href = .response st body → 200 ≤ st ∧ st < 300 →
          fetchHandler parseURL doFetch (.str t) = .ok body) ∧
       ((fetchHandler parseURL doFetch (.str t)).status = 200 →
          ∃ st body, doFetch p.href = .response st body ∧
            200 ≤ st ∧ st < 300 ∧
            fetchHandler parseURL doFetch (.str t) = .ok body)) := by
  intro parseURL doFetch t p ht hp hproto
  have htr : (t == "") = false := beq_eq_false_iff_ne.mpr ht
  have hpb : (p.protocol == "http:" || p.protocol == "https:") = true := by
    rcases hproto with h | h <;> simp [h]
  have hred : fetchHandler parseURL doFetch (.str t) =
      match doFetch p.href with
      | .response st body =>
          if !(decide (200 ≤ st) && decide (st < 300)) then
            FetchOutcome.siteError st
          else FetchOutcome.ok body
      | .failure msg => FetchOutcome.networkError msg := by
    simp only [fetchHandler, jsTruthy, isString, strVal, htr, Bool.not_false,
      Bool.not_true, Bool.or_false, Bool.false_or, Bool.not_not,
      Bool.false_eq_true, if_false, hp, hpb]
  refine ⟨?_, ?_, ?_, ?_⟩
  · intro st body hf hnot
    have hb : (decide (200 ≤ st) && decide (st < 300)) = false := by
      by_cases h1 : 200 ≤ st
      · by_cases h2 : st < 300
        · exact absurd ⟨h1, h2⟩ hnot
        · simp [h2]
      · simp [h1]
    rw [hred, hf]
    simp [hb, FetchOutcome.status, FetchOutcome.errorMsg]
  · intro msg hf
    rw [hred, hf]
    exact ⟨rfl, rfl, rfl⟩
  · intro st body hf hok
    rw [hred, hf]
    simp [hok.1, hok.2]
  · intro h200
    rw [hred] at h200
    cases hf : doFetch p.href with
    | response st body =>
      rw [hf] at h200
      by_cases hok : (decide (200 ≤ st) && decide (st < 300)) = true
      · have hok2 : 200 ≤ st ∧ st < 300 := by
          constructor
          · exact of_decide_eq_true (Bool.and_elim_left hok)
          · exact of_decide_eq_true (Bool.and_elim_right hok)
        refine ⟨st, body, rfl, hok2.1, hok2.2, ?_⟩
        rw [hred, hf]
        simp [hok]
      · rw [Bool.not_eq_true] at hok
        simp [hok, FetchOutcome.status] at h200
    | failure msg =>
      rw [hf] at h200
      simp [FetchOutcome.status] at h200

theorem fetch_upstream_outcomes_witness :
    fetchHandler modelParseURL (fun _ => UpstreamResult.response 404 "nf")
      (.str "https://example.com") = .siteError 404 ∧
    (FetchOutcome.siteError 404).status = 502 ∧
    (FetchOutcome.siteError 404).errorMsg = some ("Site returned " ++ toString 404) :=
  (fetch_upstream_outcomes modelParseURL (fun _ => UpstreamResult.response 404 "nf")
    "https://example.com"
    { protocol := "https:", href := "https://example.com" }
    (by decide) (by decide) (Or.inr rfl)).1 404 "nf" rfl (by decide)
